import Mathlib

/-!
Verification of the rolling metric store of the ski-bot repository
(`src/main_storage.py`): `DataStorage.update_metric`,
`DataStorage.get_24h_change`, `DataStorage.save_data` / `load_data`, and the
hourly sweep `CryptoCog.cleanup_old_data`.

Shallow embedding conventions:
* instants (Python `datetime`, stored as ISO-8601 strings and re-parsed with
  `datetime.fromisoformat` at every comparison) are modelled as integers
  (seconds); `timedelta(hours = h)` is `h * hourSecs`;
* metric values (Python floats) are modelled as rationals;
* Python `dict`s are modelled as association lists preserving insertion
  order, mirroring dict iteration order and the `in` / `[]` operations;
* the wall clock `datetime.now()` is passed explicitly as a `now` argument;
* file system effects are modelled explicitly: the persisted document is a
  JSON value, a disk write may fail (`diskOk : Bool`), and the `_io` variants
  of the operations return `Except String` results that mirror the
  `try`/`except` structure of the source.
-/

namespace SkiBot

/-- One observation: `{'value': value, 'timestamp': timestamp}` appended by
`update_metric`. The `timestamp` integer stands for the instant denoted by
the ISO-8601 string stored in the Python dict. -/
structure Sample where
  value : ℚ
  timestamp : ℤ
  deriving DecidableEq, Repr

/-- A per-(symbol, metric) time series: the Python list
`self.data[symbol][metric_type]`. -/
abbrev Series := List Sample

/-- The inner dict `self.data[symbol] : metric_type -> series`. -/
abbrev MetricMap := List (String × Series)

/-- The store `self.data : symbol -> metric_type -> series`. -/
abbrev Store := List (String × MetricMap)

/-- One hour, in the integer time unit (seconds): `timedelta(hours=1)`. -/
def hourSecs : ℤ := 3600

/-- Dict read `d[k]` guarded by `k in d`, on the association-list model. -/
def alistLookup {β : Type} (k : String) : List (String × β) → Option β
  | [] => none
  | (k', v) :: rest => if k = k' then some v else alistLookup k rest

/-- Dict write `d[k] = f(d.get(k))`: updates the entry in place when the key
is present (preserving its position, as Python dicts do) and appends a new
entry otherwise. -/
def alistInsert {β : Type} (k : String) (f : Option β → β) :
    List (String × β) → List (String × β)
  | [] => [(k, f none)]
  | (k', v) :: rest =>
      if k = k' then (k, f (some v)) :: rest else (k', v) :: alistInsert k f rest

/-- The two-level read `self.data[symbol][metric_type]`, `none` when either
key is missing. -/
def lookupStore (store : Store) (symbol metric : String) : Option Series :=
  match alistLookup symbol store with
  | none => none
  | some m => alistLookup metric m

/-- The list comprehension
`[point for point in series if fromisoformat(point['timestamp']) > cutoff_time]`. -/
def pruneSeries (cutoff : ℤ) (s : Series) : Series :=
  s.filter (fun p => cutoff < p.timestamp)

/-- `DataStorage.update_metric` (src/main_storage.py:52-77), pure part:
default the timestamp to `now`, create the `symbol` and `metric_type`
entries if absent, append the new point, then keep only the points newer
than `datetime.now() - timedelta(hours=48)`.  Note the prune cutoff is
computed from `now`, not from the supplied timestamp. -/
def update_metric (store : Store) (symbol metric : String) (value : ℚ)
    (timestamp : Option ℤ) (now : ℤ) : Store :=
  let ts := timestamp.getD now
  alistInsert symbol (fun om =>
    alistInsert metric (fun os =>
      pruneSeries (now - 48 * hourSecs) ((os.getD []) ++ [⟨value, ts⟩]))
      (om.getD [])) store

/-- The historical-value scan of `get_24h_change` (src/main_storage.py:94-102):
`for point in reversed(data_points[:-1])`, take the first point with
`point_time <= now - timedelta(hours=24)`. -/
def findHistorical (pts : Series) (now : ℤ) : Option Sample :=
  List.find? (fun p => p.timestamp ≤ now - 24 * hourSecs) pts.dropLast.reverse

/-- `DataStorage.get_24h_change` (src/main_storage.py:81-112): `(None, None)`
on a missing key or fewer than two points; otherwise the current value is the
last point's value, the historical value comes from `findHistorical`, and the
change is `(current - historical) / historical * 100`, `None` when no
historical point exists or its value is zero. -/
def get_24h_change (store : Store) (symbol metric : String) (now : ℤ) :
    Option ℚ × Option ℚ :=
  match lookupStore store symbol metric with
  | none => (none, none)
  | some pts =>
    if pts.length < 2 then (none, none)
    else
      match pts.getLast? with
      | none => (none, none)
      | some lastPt =>
        match findHistorical pts now with
        | none => (some lastPt.value, none)
        | some h =>
          if h.value = 0 then (some lastPt.value, none)
          else (some lastPt.value,
                some ((lastPt.value - h.value) / h.value * 100))

/-- The sweep body of `CryptoCog.cleanup_old_data` (src/main_storage.py:640-651):
for every symbol and every metric, keep only the points newer than
`datetime.now() - timedelta(hours=24)`. -/
def cleanup_old_data (store : Store) (now : ℤ) : Store :=
  store.map (fun e => (e.1, e.2.map (fun m => (m.1, pruneSeries (now - 24 * hourSecs) m.2))))

/- ### Lemmas about the association-list model -/

theorem alistLookup_alistInsert_self {β : Type} (k : String) (f : Option β → β)
    (l : List (String × β)) :
    alistLookup k (alistInsert k f l) = some (f (alistLookup k l)) := by
  induction l with
  | nil => simp [alistInsert, alistLookup]
  | cons e rest ih =>
    obtain ⟨k', v⟩ := e
    by_cases h : k = k'
    · simp [alistInsert, alistLookup, h]
    · simp [alistInsert, alistLookup, h, ih]

theorem alistLookup_map {β γ : Type} (k : String) (g : β → γ)
    (l : List (String × β)) :
    alistLookup k (l.map (fun e => (e.1, g e.2))) = (alistLookup k l).map g := by
  induction l with
  | nil => simp [alistLookup]
  | cons e rest ih =>
    by_cases h : k = e.1
    · simp [alistLookup, h]
    · simp [alistLookup, h, ih]

/-- Reading back the series just touched by `update_metric`: it is the old
series (empty when absent) with the new point appended, pruned at
`now - 48h`. -/
theorem lookupStore_update_metric (store : Store) (sym met : String) (v : ℚ)
    (timestamp : Option ℤ) (now : ℤ) :
    lookupStore (update_metric store sym met v timestamp now) sym met =
      some (pruneSeries (now - 48 * hourSecs)
        (((lookupStore store sym met).getD []) ++ [⟨v, timestamp.getD now⟩])) := by
  unfold update_metric lookupStore
  rw [alistLookup_alistInsert_self]
  cases halist : alistLookup sym store with
  | none => simp [alistLookup_alistInsert_self, alistLookup]
  | some m => simp [alistLookup_alistInsert_self]

theorem lookupStore_cleanup (store : Store) (now : ℤ) (sym met : String) :
    lookupStore (cleanup_old_data store now) sym met =
      (lookupStore store sym met).map (pruneSeries (now - 24 * hourSecs)) := by
  unfold cleanup_old_data lookupStore
  rw [alistLookup_map]
  cases halist : alistLookup sym store with
  | none => simp
  | some m => simp [alistLookup_map]

/- ### Claim theorems -/

/-- C1: with samples (t=0, 100), (t=23h, 150), (t=25h, 200), `get_24h_change`
at now = 25h returns current = 200 and change = +100%: the scan skips the
most recent sample, rejects the 23h sample (younger than 24h) and picks the
t=0 sample as historical. -/
theorem delta24h_p6_example :
    get_24h_change
      [("BTC", [("oi_value",
        [⟨100, 0⟩, ⟨150, 23 * hourSecs⟩, ⟨200, 25 * hourSecs⟩])])]
      "BTC" "oi_value" (25 * hourSecs) = (some 200, some 100) := by
  norm_num [get_24h_change, lookupStore, alistLookup, findHistorical,
    pruneSeries, hourSecs, List.find?]

/-- C2 counterexample: from an empty store, after a single
`record("BTC","oi_value",1000,t0)`, `get_24h_change` does NOT return
`(1000, absent)` — the series has one sample, so the two-sample guard fires
first. -/
theorem delta24h_single_sample_counterexample :
    get_24h_change (update_metric [] "BTC" "oi_value" 1000 (some 0) 0)
      "BTC" "oi_value" 0 ≠ (some 1000, none) := by
  decide

/-- C2 (amended): from an empty store, after a single
`record("BTC","oi_value",1000,t0)`, `get_24h_change` returns
`(absent, absent)`: with fewer than two samples neither the current value
nor the change is reported. -/
theorem delta24h_single_sample :
    get_24h_change (update_metric [] "BTC" "oi_value" 1000 (some 0) 0)
      "BTC" "oi_value" 0 = (none, none) := by
  decide

/-- C3: for every store and key, if the key is absent or its series has at
most one sample, `get_24h_change` returns `(absent, absent)`. -/
theorem delta24h_insufficient_history (store : Store) (sym met : String) (now : ℤ)
    (h : lookupStore store sym met = none ∨
         ∃ s, lookupStore store sym met = some s ∧ s.length ≤ 1) :
    get_24h_change store sym met now = (none, none) := by
  unfold get_24h_change
  rcases h with h | ⟨s, hs, hlen⟩
  · rw [h]
  · rw [hs]
    simp only [if_pos (by omega : s.length < 2)]

/-- C3 witness: the empty store at a concrete key. -/
theorem delta24h_insufficient_history_witness :
    get_24h_change [] "BTC" "oi_value" 0 = (none, none) :=
  delta24h_insufficient_history [] "BTC" "oi_value" 0 (Or.inl rfl)

/-- C4 counterexample: `update_metric` prunes against wall-clock `now`, not
against the supplied timestamp.  Recording at explicit timestamp 100h while
`now` = 48h keeps an old sample from t = 1h, whose age relative to the
just-recorded sample's timestamp is 99h > 48h. -/
theorem update_metric_window_counterexample :
    ¬ (∀ p ∈ (lookupStore
        (update_metric [("BTC", [("oi_value", [⟨100, 3600⟩])])]
          "BTC" "oi_value" 200 (some (100 * hourSecs)) (48 * hourSecs))
        "BTC" "oi_value").getD [],
      100 * hourSecs - p.timestamp ≤ 48 * hourSecs) := by
  decide

/-- C4 (amended): after any `update_metric` call, every sample remaining in
that series is strictly newer than `now - 48h`, where `now` is the current
wall-clock time at the call (the prune cutoff) — not the supplied timestamp;
the two agree when the timestamp argument is defaulted. -/
theorem update_metric_window_bound (store : Store) (sym met : String) (v : ℚ)
    (timestamp : Option ℤ) (now : ℤ) (s' : Series) (p : Sample)
    (hl : lookupStore (update_metric store sym met v timestamp now) sym met = some s')
    (hp : p ∈ s') :
    now - 48 * hourSecs < p.timestamp := by
  rw [lookupStore_update_metric] at hl
  injection hl with h
  subst h
  simp only [pruneSeries, List.mem_filter, decide_eq_true_eq] at hp
  exact hp.2

/-- C4 witness: recording into the empty store at timestamp 0 with now = 0
leaves one sample, newer than the 48h cutoff. -/
theorem update_metric_window_bound_witness :
    (0 : ℤ) - 48 * hourSecs < (Sample.mk 1 0).timestamp :=
  update_metric_window_bound [] "BTC" "oi_value" 1 (some 0) 0
    [⟨1, 0⟩] ⟨1, 0⟩ rfl (by simp)

/-- C10: when the explicit timestamp is more than 48h older than the current
wall-clock time, the inline prune (whose cutoff is computed from `now`)
immediately drops the just-appended sample: the series after `update_metric`
does not contain the new observation. -/
theorem update_metric_stale_timestamp_dropped (store : Store) (sym met : String)
    (v : ℚ) (ts now : ℤ) (s' : Series)
    (hts : ts < now - 48 * hourSecs)
    (hl : lookupStore (update_metric store sym met v (some ts) now) sym met = some s') :
    Sample.mk v ts ∉ s' := by
  rw [lookupStore_update_metric] at hl
  injection hl with h
  subst h
  intro hmem
  simp only [pruneSeries, List.mem_filter, decide_eq_true_eq] at hmem
  omega

/-- C10 witness: a sample recorded at timestamp 0 when now = 49h is pruned
away at once. -/
theorem update_metric_stale_timestamp_dropped_witness :
    Sample.mk 7 0 ∉ ([] : Series) :=
  update_metric_stale_timestamp_dropped [] "BTC" "oi_value" 7 0 (49 * hourSecs)
    [] (by decide) (by decide)

/- ### Persistence and I/O layer -/

/-- One invocation of `save_data` on the given store (the full-store write
inside `update_metric` and at the end of `cleanup_old_data`). -/
inductive PersistEvent where
  | save : Store → PersistEvent
  deriving DecidableEq

/-- The raw file write inside `save_data` (`json.dump` to the open file):
fails when the disk does not cooperate. -/
def disk_write (diskOk : Bool) : Except String Unit :=
  if diskOk then Except.ok () else Except.error "Error saving data"

/-- `DataStorage.save_data` (src/main_storage.py:41-50): the body is wrapped
in `try`/`except`, the error is logged and swallowed, so the call never
raises even when the disk write fails. -/
def save_data_io (diskOk : Bool) : Except String Unit :=
  match disk_write diskOk with
  | Except.ok u => Except.ok u
  | Except.error _ => Except.ok ()

/-- `DataStorage.update_metric` with its effects: the in-memory mutation
happens first, then `save_data` runs; by the outer `try`/`except`, even a
raising persist step would leave the already-applied in-place mutation in
`self.data` and return normally. -/
def update_metric_io (store : Store) (symbol metric : String) (value : ℚ)
    (timestamp : Option ℤ) (now : ℤ) (diskOk : Bool) : Except String Store :=
  let newStore := update_metric store symbol metric value timestamp now
  match save_data_io diskOk with
  | Except.ok _ => Except.ok newStore
  | Except.error _ => Except.ok newStore

/-- `DataStorage.get_24h_change` with its `try`/`except` wrapper; the body
performs no writes and, in this embedding, no failing step. -/
def get_24h_change_io (store : Store) (symbol metric : String) (now : ℤ) :
    Except String (Option ℚ × Option ℚ) :=
  Except.ok (get_24h_change store symbol metric now)

/-- `CryptoCog.cleanup_old_data` with its effects: prune every series, then
call `save_data` exactly once after the full sweep; the surrounding
`try`/`except` logs and swallows any error. -/
def cleanup_old_data_io (store : Store) (now : ℤ) (diskOk : Bool) :
    Except String (Store × List PersistEvent) :=
  let pruned := cleanup_old_data store now
  match save_data_io diskOk with
  | Except.ok _ => Except.ok (pruned, [PersistEvent.save pruned])
  | Except.error _ => Except.ok (pruned, [PersistEvent.save pruned])

/-- `get_24h_change` as a state-passing operation on the store, mirroring
that the source function only reads `self.data`. -/
def get_24h_change_st (store : Store) (symbol metric : String) (now : ℤ) :
    Store × (Option ℚ × Option ℚ) :=
  (store, get_24h_change store symbol metric now)

/-- C5: after a `cleanup_old_data` sweep at time `T`, every remaining sample
in every series is strictly newer than `T - 24h` (so no sample has age over
24h, and every sample at or before `T - 24h` is gone), and the sweep calls
`save_data` exactly once, after the full sweep. -/
theorem cleanup_sweep_bound (store : Store) (T : ℤ) (diskOk : Bool)
    (sym met : String) (s' : Series) (p : Sample)
    (hl : lookupStore (cleanup_old_data store T) sym met = some s')
    (hp : p ∈ s') :
    T - p.timestamp < 24 * hourSecs ∧
      cleanup_old_data_io store T diskOk =
        Except.ok (cleanup_old_data store T,
          [PersistEvent.save (cleanup_old_data store T)]) := by
  constructor
  · rw [lookupStore_cleanup, Option.map_eq_some'] at hl
    obtain ⟨s, _, rfl⟩ := hl
    simp only [pruneSeries, List.mem_filter, decide_eq_true_eq] at hp
    omega
  · cases diskOk <;> rfl

/-- C5 witness: sweeping a two-sample series at T = 25h keeps only the young
sample and persists once. -/
theorem cleanup_sweep_bound_witness :
    (90000 : ℤ) - (Sample.mk 2 90000).timestamp < 24 * hourSecs ∧
      cleanup_old_data_io [("BTC", [("oi_value", [⟨1, 0⟩, ⟨2, 90000⟩])])] 90000 true =
        Except.ok (cleanup_old_data [("BTC", [("oi_value", [⟨1, 0⟩, ⟨2, 90000⟩])])] 90000,
          [PersistEvent.save (cleanup_old_data
            [("BTC", [("oi_value", [⟨1, 0⟩, ⟨2, 90000⟩])])] 90000)]) :=
  cleanup_sweep_bound [("BTC", [("oi_value", [⟨1, 0⟩, ⟨2, 90000⟩])])] 90000 true
    "BTC" "oi_value" [⟨2, 90000⟩] ⟨2, 90000⟩ rfl (by simp)

/-- C6: when the series has at least two samples and the historical sample
selected by the 24h scan has value exactly 0, `get_24h_change` returns the
latest value and an absent change — the division is never evaluated. -/
theorem delta24h_zero_guard (store : Store) (sym met : String) (now : ℤ)
    (pts : Series) (lastPt h : Sample)
    (hl : lookupStore store sym met = some pts)
    (hlen : 2 ≤ pts.length)
    (hlast : pts.getLast? = some lastPt)
    (hfind : findHistorical pts now = some h)
    (hzero : h.value = 0) :
    get_24h_change store sym met now = (some lastPt.value, none) := by
  unfold get_24h_change
  rw [hl]
  simp only [if_neg (by omega : ¬ pts.length < 2)]
  rw [hlast, hfind]
  simp [hzero]

/-- C6 witness: samples (t=0, value 0) and (t=25h, value 50), queried at
now = 25h: the historical sample has value 0, so the result is
`(some 50, none)` (Scenario C). -/
theorem delta24h_zero_guard_witness :
    get_24h_change [("BTC", [("oi_value", [⟨0, 0⟩, ⟨50, 90000⟩])])]
      "BTC" "oi_value" 90000 = (some (Sample.mk 50 90000).value, none) :=
  delta24h_zero_guard [("BTC", [("oi_value", [⟨0, 0⟩, ⟨50, 90000⟩])])]
    "BTC" "oi_value" 90000 [⟨0, 0⟩, ⟨50, 90000⟩] ⟨50, 90000⟩ ⟨0, 0⟩
    rfl (by simp) rfl rfl rfl

/-- C7: none of the store operations propagates an error: `update_metric`
returns normally with the appended-and-pruned store even when the disk write
fails, and the read and sweep operations likewise return `ok` results. -/
theorem store_ops_never_raise (store : Store) (sym met : String) (v : ℚ)
    (timestamp : Option ℤ) (now : ℤ) (diskOk : Bool) :
    update_metric_io store sym met v timestamp now diskOk =
        Except.ok (update_metric store sym met v timestamp now) ∧
      get_24h_change_io store sym met now =
        Except.ok (get_24h_change store sym met now) ∧
      cleanup_old_data_io store now diskOk =
        Except.ok (cleanup_old_data store now,
          [PersistEvent.save (cleanup_old_data store now)]) := by
  refine ⟨?_, rfl, ?_⟩ <;> cases diskOk <;> rfl

/- ### Persisted document model (`save_data` / `load_data`)

`save_data` writes `json.dump(self.data)`; `load_data` reads it back with
`json.load`, returning `{}` when the file is absent and `{}` when loading
raises.  The document is modelled as a JSON value tree; the ISO-8601
timestamp string produced by `datetime.isoformat` is modelled by the
`timeStr` constructor carrying the instant it denotes, since `isoformat` is
injective and `datetime.fromisoformat` is its inverse (both are stdlib
collaborators, out of scope per the spec). -/

/-- A JSON document value as written by `json.dump`. -/
inductive JVal where
  | num : ℚ → JVal
  | timeStr : ℤ → JVal
  | arr : List JVal → JVal
  | obj : List (String × JVal) → JVal

/-- The JSON object `{'value': v, 'timestamp': isoformat(t)}`. -/
def encodeSample (s : Sample) : JVal :=
  JVal.obj [("value", JVal.num s.value), ("timestamp", JVal.timeStr s.timestamp)]

/-- Reading one sample dict back out of the parsed document. -/
def decodeSample : JVal → Option Sample
  | JVal.obj [("value", JVal.num v), ("timestamp", JVal.timeStr t)] => some ⟨v, t⟩
  | _ => none

/-- Reading a list of sample dicts back, failing if any element fails. -/
def decodeSamples : List JVal → Option (List Sample)
  | [] => some []
  | j :: rest =>
    match decodeSample j, decodeSamples rest with
    | some s, some ss => some (s :: ss)
    | _, _ => none

/-- The JSON array holding one series. -/
def encodeSeries (s : Series) : JVal :=
  JVal.arr (s.map encodeSample)

/-- Reading a series back out of the parsed document. -/
def decodeSeries : JVal → Option Series
  | JVal.arr items => decodeSamples items
  | _ => none

/-- Reading the entries of a JSON object back, one decoder per value. -/
def decodeEntries {β : Type} (dec : JVal → Option β) :
    List (String × JVal) → Option (List (String × β))
  | [] => some []
  | (k, j) :: rest =>
    match dec j, decodeEntries dec rest with
    | some v, some vs => some ((k, v) :: vs)
    | _, _ => none

/-- The JSON object holding one symbol's metric map. -/
def encodeMetricMap (m : MetricMap) : JVal :=
  JVal.obj (m.map (fun e => (e.1, encodeSeries e.2)))

/-- Reading one symbol's metric map back. -/
def decodeMetricMap : JVal → Option MetricMap
  | JVal.obj entries => decodeEntries decodeSeries entries
  | _ => none

/-- `DataStorage.save_data`, data part: the document written to
`data/crypto_data.json` is the JSON encoding of the whole store. -/
def save_data (store : Store) : JVal :=
  JVal.obj (store.map (fun e => (e.1, encodeMetricMap e.2)))

/-- Reading the whole store back out of the parsed document. -/
def decodeStore : JVal → Option Store
  | JVal.obj entries => decodeEntries decodeMetricMap entries
  | _ => none

/-- `DataStorage.load_data` (src/main_storage.py:29-39): `{}` when the file
is absent, `{}` when loading/parsing raises, else the parsed store. -/
def load_data (file : Option JVal) : Store :=
  match file with
  | none => []
  | some j => (decodeStore j).getD []

theorem decodeSample_encodeSample (s : Sample) :
    decodeSample (encodeSample s) = some s := rfl

theorem decodeSamples_map (l : List Sample) :
    decodeSamples (l.map encodeSample) = some l := by
  induction l with
  | nil => rfl
  | cons s rest ih => simp [decodeSamples, decodeSample_encodeSample, ih]

theorem decodeSeries_encodeSeries (s : Series) :
    decodeSeries (encodeSeries s) = some s := by
  simp [decodeSeries, encodeSeries, decodeSamples_map]

theorem decodeEntries_map {β : Type} (dec : JVal → Option β) (enc : β → JVal)
    (hinv : ∀ x, dec (enc x) = some x) (l : List (String × β)) :
    decodeEntries dec (l.map (fun e => (e.1, enc e.2))) = some l := by
  induction l with
  | nil => rfl
  | cons e rest ih => simp [decodeEntries, hinv, ih]

theorem decodeMetricMap_encodeMetricMap (m : MetricMap) :
    decodeMetricMap (encodeMetricMap m) = some m := by
  simp [decodeMetricMap, encodeMetricMap,
    decodeEntries_map decodeSeries encodeSeries decodeSeries_encodeSeries]

/-- C9: persistence round-trips: loading the document written by `save_data`
restores a structurally identical store — same symbol and metric keys, same
sample values and timestamps, same order. -/
theorem save_load_roundtrip (store : Store) :
    load_data (some (save_data store)) = store := by
  simp [load_data, save_data, decodeStore,
    decodeEntries_map decodeMetricMap encodeMetricMap decodeMetricMap_encodeMetricMap]

/-- C8: `get_24h_change` is read-only: the store after the call is the one
before it, and every key — present or absent — reads the same afterwards;
no entry is created by a read. -/
theorem delta24h_readonly (store : Store) (sym met : String) (now : ℤ)
    (sym2 met2 : String) :
    (get_24h_change_st store sym met now).1 = store ∧
      lookupStore (get_24h_change_st store sym met now).1 sym2 met2 =
        lookupStore store sym2 met2 :=
  ⟨rfl, rfl⟩

end SkiBot
